import Mathlib

/-!
Shallow embedding of the EasyScript evaluator (easyscript/easyscript.py):
a tokenizer, a statement splitter, a recursive-descent parser that evaluates
during the descent, a non-executing mirror grammar used by verify, and the
top-level evaluate/verify entry points.

Modelling conventions:
  - Python int is Int; Python float is modelled as a rational number (exact on
    the integral values the claims use); Python str is String.
  - Host objects (used via dot notation) are modelled as attribute association
    lists with value semantics: setattr is a functional update that is written
    back into the variable binding, which is observationally equivalent to
    in-place mutation for environment-reachable state.
  - Python exceptions become an error type; recursion is made total with a
    fuel parameter, and fuel exhaustion plays the role of RecursionError
    (which the source treats as a generic, non-syntax exception).
  - The re module is modelled for the pattern subset the source exercises:
    literal characters, the dot wildcard, character classes with ranges and
    negation, and the quantifiers star, plus, question mark; an unterminated
    character class is a compile error, as in re.error.
-/


/-- Python float modelled as an exact normalized fraction (exact on the
integral values the claims exercise; IEEE rounding is not modelled). -/
structure PyQ where
  num : Int
  den : Nat
deriving DecidableEq

/-- Build a normalized fraction from a numerator and a nonzero denominator. -/
def pyQMk (n : Int) (d : Int) : PyQ :=
  let n2 : Int := if d < 0 then -n else n
  let dn : Nat := d.natAbs
  let g : Nat := Nat.gcd n2.natAbs dn
  if g = 0 then { num := 0, den := 0 } else { num := n2 / (g : Int), den := dn / g }

def PyQ.ofInt (n : Int) : PyQ := { num := n, den := 1 }

def PyQ.addQ (a b : PyQ) : PyQ :=
  pyQMk (a.num * (b.den : Int) + b.num * (a.den : Int)) ((a.den : Int) * (b.den : Int))

def PyQ.subQ (a b : PyQ) : PyQ :=
  pyQMk (a.num * (b.den : Int) - b.num * (a.den : Int)) ((a.den : Int) * (b.den : Int))

def PyQ.mulQ (a b : PyQ) : PyQ :=
  pyQMk (a.num * b.num) ((a.den : Int) * (b.den : Int))

def PyQ.divQ (a b : PyQ) : PyQ :=
  pyQMk (a.num * (b.den : Int)) ((a.den : Int) * b.num)

def PyQ.negQ (a : PyQ) : PyQ := { a with num := -a.num }

def PyQ.ltB (a b : PyQ) : Bool :=
  a.num * (b.den : Int) < b.num * (a.den : Int)

def PyQ.leB (a b : PyQ) : Bool :=
  a.num * (b.den : Int) ≤ b.num * (a.den : Int)

/-- Lexicographic comparison of character lists (Python string <). -/
def charListLt : List Char → List Char → Bool
  | [], [] => false
  | [], _ :: _ => true
  | _ :: _, [] => false
  | a :: as, b :: bs => a < b || (a == b && charListLt as bs)

/-- Python string less-than. -/
def strLt (a b : String) : Bool := charListLt a.data b.data

/-- Python str.strip (whitespace from both ends). -/
def trimStr (s : String) : String :=
  String.mk (((s.data.dropWhile Char.isWhitespace).reverse.dropWhile Char.isWhitespace).reverse)

/-- Whether a string starts with the hash character. -/
def startsWithHashC (s : String) : Bool :=
  match s.data with
  | c :: _ => c = '#'
  | [] => false

/-- Runtime values of the EasyScript language (the Python Any universe
restricted to what the evaluator produces and the claims consume). -/
inductive Value where
  | int (n : Int)
  | float (q : PyQ)
  | str (s : String)
  | bool (b : Bool)
  | null
  | obj (attrs : List (String × Value))

/-- Python exception kinds raised by the source, plus a generic kind for the
wrapped exceptions of evaluate and a recursion kind for stack exhaustion. -/
inductive EvalError where
  | nameErr (msg : String)
  | attrErr (msg : String)
  | typeErr (msg : String)
  | valueErr (msg : String)
  | syntaxErr (msg : String)
  | zeroDivErr (msg : String)
  | indexErr (msg : String)
  | genericErr (msg : String)
  | recursionErr

/-- Python type name of a value, used in error messages. -/
def pyTypeName : Value → String
  | .int _ => "int"
  | .float _ => "float"
  | .str _ => "str"
  | .bool _ => "bool"
  | .null => "NoneType"
  | .obj _ => "object"

/-- Python truthiness. -/
def truthy : Value → Bool
  | .int n => n != 0
  | .float q => q.num != 0
  | .str s => s != ""
  | .bool b => b
  | .null => false
  | .obj _ => true

/-- Render a fraction that stands for a Python float.  Exact for integral
values (the only floats the claims print); approximate otherwise. -/
def qStr (q : PyQ) : String :=
  if q.den = 1 then toString q.num ++ ".0" else toString q.num ++ "/" ++ toString q.den

/-- Python str() of a value (object rendering abstracted to a constant). -/
def pyStr : Value → String
  | .int n => toString n
  | .float q => qStr q
  | .str s => s
  | .bool b => if b then "True" else "False"
  | .null => "None"
  | .obj _ => "<object>"

/-- The integer content of an int or bool value (Python bool is an int). -/
def intQ : Value → Option Int
  | .int n => some n
  | .bool b => some (if b then 1 else 0)
  | _ => none

/-- The numeric content of an int, float or bool value, as a fraction. -/
def numQ : Value → Option PyQ
  | .int n => some (PyQ.ofInt n)
  | .float q => some q
  | .bool b => some (PyQ.ofInt (if b then 1 else 0))
  | _ => none

/-- Whether a value is a Python str. -/
def isStrV : Value → Bool
  | .str _ => true
  | _ => false

/-- Python repetition of a string by an integer count. -/
def strRepeat (s : String) (n : Int) : String :=
  String.join (List.replicate n.toNat s)

/-- Python binary + on non-string operands (the string-concatenation case is
handled before this point by parse_additive, as in the source). -/
def pyAdd (l r : Value) : Except EvalError Value :=
  match intQ l, intQ r with
  | some a, some b => .ok (.int (a + b))
  | _, _ =>
    match numQ l, numQ r with
    | some a, some b => .ok (.float (PyQ.addQ a b))
    | _, _ => .error (.typeErr ("unsupported operand types for +: " ++ pyTypeName l ++ " and " ++ pyTypeName r))

/-- Python binary -. -/
def pySub (l r : Value) : Except EvalError Value :=
  match intQ l, intQ r with
  | some a, some b => .ok (.int (a - b))
  | _, _ =>
    match numQ l, numQ r with
    | some a, some b => .ok (.float (PyQ.subQ a b))
    | _, _ => .error (.typeErr ("unsupported operand types for -: " ++ pyTypeName l ++ " and " ++ pyTypeName r))

/-- Python binary *. -/
def pyMul (l r : Value) : Except EvalError Value :=
  match intQ l, intQ r with
  | some a, some b => .ok (.int (a * b))
  | _, _ =>
    match l, intQ r with
    | .str s, some n => .ok (.str (strRepeat s n))
    | _, _ =>
      match intQ l, r with
      | some n, .str s => .ok (.str (strRepeat s n))
      | _, _ =>
        match numQ l, numQ r with
        | some a, some b => .ok (.float (PyQ.mulQ a b))
        | _, _ => .error (.typeErr ("unsupported operand types for *: " ++ pyTypeName l ++ " and " ++ pyTypeName r))

/-- Python true division: a float result whenever it succeeds, a
ZeroDivisionError on a zero divisor, a TypeError on non-numbers. -/
def pyDiv (l r : Value) : Except EvalError Value :=
  match numQ l, numQ r with
  | some a, some b =>
      if b.num = 0 then .error (.zeroDivErr "division by zero")
      else .ok (.float (PyQ.divQ a b))
  | _, _ => .error (.typeErr ("unsupported operand types for /: " ++ pyTypeName l ++ " and " ++ pyTypeName r))

/-- Python unary minus. -/
def pyNeg (v : Value) : Except EvalError Value :=
  match v with
  | .float q => .ok (.float (PyQ.negQ q))
  | _ =>
    match intQ v with
    | some n => .ok (.int (-n))
    | none => .error (.typeErr ("bad operand type for unary -: " ++ pyTypeName v))

/-- Python ==, which never raises: numbers compare numerically (bool counts
as int), strings textually, None equals None; object identity is not
modelled, so distinct-looking values of other shapes compare unequal. -/
def pyEqB (l r : Value) : Bool :=
  match numQ l, numQ r with
  | some a, some b => decide (a = b)
  | _, _ =>
    match l, r with
    | .str a, .str b => a == b
    | .null, .null => true
    | _, _ => false

/-- Python <, defined on number pairs and string pairs, otherwise TypeError. -/
def pyLtB (l r : Value) : Except EvalError Bool :=
  match l, r with
  | .str a, .str b => .ok (strLt a b)
  | _, _ =>
    match numQ l, numQ r with
    | some a, some b => .ok (PyQ.ltB a b)
    | _, _ => .error (.typeErr ("comparison not supported between " ++ pyTypeName l ++ " and " ++ pyTypeName r))

/-- Python <=. -/
def pyLeB (l r : Value) : Except EvalError Bool :=
  match l, r with
  | .str a, .str b => .ok (strLt a b || a == b)
  | _, _ =>
    match numQ l, numQ r with
    | some a, some b => .ok (PyQ.leB a b)
    | _, _ => .error (.typeErr ("comparison not supported between " ++ pyTypeName l ++ " and " ++ pyTypeName r))

/-- Python >. -/
def pyGtB (l r : Value) : Except EvalError Bool := pyLtB r l

/-- Python >=. -/
def pyGeB (l r : Value) : Except EvalError Bool := pyLeB r l

/-- Python len(), defined for strings (host lists are not modelled). -/
def pyLen (v : Value) : Except EvalError Value :=
  match v with
  | .str s => .ok (.int s.length)
  | _ => .error (.typeErr ("object of type " ++ pyTypeName v ++ " has no len()"))

/-- Normalize a possibly negative Python index against a length. -/
def normIdx (n : Int) (len : Nat) : Int :=
  if n < 0 then n + len else n

/-- Clamp a Python slice bound into the range of a length. -/
def clampIdx (n : Int) (len : Nat) : Nat :=
  let m := normIdx n len
  if m < 0 then 0 else if m > (len : Int) then len else m.toNat

/-- Python string slicing with optional bounds. -/
def strSlice (s : String) (a b : Option Int) : String :=
  let lo := match a with | some n => clampIdx n s.length | none => 0
  let hi := match b with | some n => clampIdx n s.length | none => s.length
  String.mk ((s.data.take hi).drop lo)

/-- Python indexing obj[i]; only strings support positional access here. -/
def pyGetItem (v i : Value) : Except EvalError Value :=
  match v with
  | .str s =>
    match intQ i with
    | some n =>
      let m := normIdx n s.length
      if 0 ≤ m ∧ m < (s.length : Int) then
        .ok (.str (String.singleton (s.data.getD m.toNat ' ')))
      else .error (.indexErr "string index out of range")
    | none => .error (.typeErr "string indices must be integers")
  | _ => .error (.typeErr (pyTypeName v ++ " object is not subscriptable"))

/-- Extract an optional slice bound, requiring an int (or bool) when given. -/
def sliceBound (v : Option Value) : Except EvalError (Option Int) :=
  match v with
  | none => .ok none
  | some x =>
    match intQ x with
    | some n => .ok (some n)
    | none => .error (.typeErr "slice indices must be integers or None")

/-- Python slicing obj[a:b] with optional bounds; strings only. -/
def pySliceVal (v : Value) (a b : Option Value) : Except EvalError Value :=
  match v with
  | .str s =>
    match sliceBound a with
    | .error e => .error e
    | .ok lo =>
      match sliceBound b with
      | .error e => .error e
      | .ok hi => .ok (.str (strSlice s lo hi))
  | _ => .error (.typeErr (pyTypeName v ++ " object is not subscriptable"))

/-- Python boolean combinator and: left when falsy, else right. -/
def pyAnd (l r : Value) : Value := if truthy l then r else l

/-- Python boolean combinator or: left when truthy, else right. -/
def pyOr (l r : Value) : Value := if truthy l then l else r

/-- Attribute lookup on a host object (hasattr/getattr; only obj values carry
attributes in this model). -/
def getAttrVal : Value → String → Option Value
  | .obj attrs, name => attrs.lookup name
  | _, _ => none

/-- Attribute update on an attribute list (setattr: replace or append). -/
def setAttr : List (String × Value) → String → Value → List (String × Value)
  | [], name, v => [(name, v)]
  | (k, w) :: rest, name, v =>
      if k = name then (k, v) :: rest else (k, w) :: setAttr rest name v

/-- Token payloads (TokenType plus the token value of the source). -/
inductive Tok where
  | number (v : Value)
  | strTok (s : String)
  | ident (s : String)
  | keyword (s : String)
  | op (s : String)
  | lparen
  | rparen
  | lbracket
  | rbracket
  | colon
  | comma
  | dot
  | eof

/-- A token with its source position, as in the Token dataclass. -/
structure Token where
  t : Tok
  pos : Nat

/-- The token the source renders for an EOF value is None. -/
def tokValueStr (tok : Token) : String :=
  match tok.t with
  | .number v => pyStr v
  | .strTok s => s
  | .ident s => s
  | .keyword s => s
  | .op s => s
  | .lparen => "("
  | .rparen => ")"
  | .lbracket => "["
  | .rbracket => "]"
  | .colon => ":"
  | .comma => ","
  | .dot => "."
  | .eof => "None"

def Token.isKw (tok : Token) (s : String) : Bool :=
  match tok.t with
  | .keyword k => k == s
  | _ => false

def Token.isOp (tok : Token) (s : String) : Bool :=
  match tok.t with
  | .op k => k == s
  | _ => false

def Token.identName (tok : Token) : Option String :=
  match tok.t with
  | .ident s => some s
  | _ => none

def Token.isIdent (tok : Token) : Bool :=
  match tok.t with
  | .ident _ => true
  | _ => false

def Token.isDot (tok : Token) : Bool :=
  match tok.t with | .dot => true | _ => false

def Token.isLparen (tok : Token) : Bool :=
  match tok.t with | .lparen => true | _ => false

def Token.isRparen (tok : Token) : Bool :=
  match tok.t with | .rparen => true | _ => false

def Token.isLbracket (tok : Token) : Bool :=
  match tok.t with | .lbracket => true | _ => false

def Token.isRbracket (tok : Token) : Bool :=
  match tok.t with | .rbracket => true | _ => false

def Token.isColon (tok : Token) : Bool :=
  match tok.t with | .colon => true | _ => false

def Token.isComma (tok : Token) : Bool :=
  match tok.t with | .comma => true | _ => false

def Token.isEof (tok : Token) : Bool :=
  match tok.t with | .eof => true | _ => false

/-- Default token used for out-of-range reads (unreachable after tokenize,
whose output always ends in an EOF token). -/
def eofDefault : Token := { t := .eof, pos := 0 }

/-- The reserved words of the tokenizer. -/
def keywords : List String :=
  ["if", "then", "else", "and", "or", "not", "True", "False", "true", "false", "null"]

/-- Convert a scanned digit-and-dot run into a number value, as
int(value)/float(value) do: no dot is an int, one dot is a float, more than
one dot is a ValueError. -/
def numLit (cs : List Char) : Except EvalError Value :=
  let digitsToNat (ds : List Char) : Nat :=
    ds.foldl (fun a c => a * 10 + (c.toNat - 48)) 0
  if cs.count '.' = 0 then
    .ok (.int (digitsToNat cs))
  else if cs.count '.' = 1 then
    let ip := cs.takeWhile (fun c => c != '.')
    let fp := (cs.dropWhile (fun c => c != '.')).drop 1
    .ok (.float (pyQMk ((digitsToNat ip * 10 ^ fp.length + digitsToNat fp : Nat) : Int) ((10 ^ fp.length : Nat) : Int)))
  else
    .error (.valueErr ("could not convert string to float: " ++ String.mk cs))

/-- Scan a string literal body after the opening quote, handling the escape
sequences of the source; returns the collected text, the remaining input and
the position after the literal (an unterminated literal is not an error). -/
def scanStr : List Char → Nat → List Char → (String × List Char × Nat)
  | [], pos, acc => (String.mk acc.reverse, [], pos)
  | '"' :: cs, pos, acc => (String.mk acc.reverse, cs, pos + 1)
  | '\\' :: d :: cs, pos, acc =>
      let piece : List Char :=
        if d = 'n' then ['\n']
        else if d = 't' then ['\t']
        else if d = 'r' then ['\r']
        else if d = '\\' then ['\\']
        else if d = '"' then ['"']
        else if d = '\x27' then ['\x27']
        else [d, '\\']
      scanStr cs (pos + 2) (piece ++ acc)
  | c :: cs, pos, acc => scanStr cs (pos + 1) (c :: acc)

/-- The single-character token table of the tokenizer, with the dedicated
errors for ampersand/pipe and for unrecognized characters. -/
def tokenizeSingle (c : Char) (pos : Nat) : Except EvalError Token :=
  if c = '(' then .ok { t := .lparen, pos := pos }
  else if c = ')' then .ok { t := .rparen, pos := pos }
  else if c = '[' then .ok { t := .lbracket, pos := pos }
  else if c = ']' then .ok { t := .rbracket, pos := pos }
  else if c = ':' then .ok { t := .colon, pos := pos }
  else if c = ',' then .ok { t := .comma, pos := pos }
  else if c = '.' then .ok { t := .dot, pos := pos }
  else if "+-*/><!~=".data.contains c then .ok { t := .op (String.singleton c), pos := pos }
  else if c = '&' || c = '|' then
    .error (.syntaxErr ("Unsupported operator " ++ String.singleton c ++ " at position " ++ toString pos ++ ". Use and and or instead of && and ||."))
  else
    .error (.syntaxErr ("Unexpected character " ++ String.singleton c ++ " at position " ++ toString pos))

/-- One pass of the tokenizer loop; fuel only guards the recursion and is
never exhausted when it starts at the input length plus one, because every
step consumes at least one character. -/
def tokenizeGo : Nat → List Char → Nat → Except EvalError (List Token)
  | 0, _, _ => .error .recursionErr
  | _ + 1, [], pos => .ok [{ t := .eof, pos := pos }]
  | fuel + 1, c :: cs, pos =>
    if c.isWhitespace then tokenizeGo fuel cs (pos + 1)
    else if c.isDigit then
      let run := (c :: cs).takeWhile (fun ch => ch.isDigit || ch = '.')
      let rest := (c :: cs).dropWhile (fun ch => ch.isDigit || ch = '.')
      match numLit run with
      | .error e => .error e
      | .ok v =>
        (tokenizeGo fuel rest (pos + run.length)).map
          (fun ts => { t := .number v, pos := pos } :: ts)
    else if c = '"' then
      let (s, rest, pos2) := scanStr cs (pos + 1) []
      (tokenizeGo fuel rest pos2).map
        (fun ts => { t := .strTok s, pos := pos } :: ts)
    else if c.isAlpha || c = '_' then
      let run := (c :: cs).takeWhile (fun ch => ch.isAlphanum || ch = '_')
      let rest := (c :: cs).dropWhile (fun ch => ch.isAlphanum || ch = '_')
      let word := String.mk run
      let tok : Tok := if keywords.contains word then .keyword word else .ident word
      (tokenizeGo fuel rest (pos + run.length)).map
        (fun ts => { t := tok, pos := pos } :: ts)
    else if c = '#' then
      let run := (c :: cs).takeWhile (fun ch => ch != '\n')
      tokenizeGo fuel ((c :: cs).dropWhile (fun ch => ch != '\n')) (pos + run.length)
    else
      match cs with
      | c2 :: cs2 =>
        if c = '/' && c2 = '/' then
          let run := (c :: cs).takeWhile (fun ch => ch != '\n')
          tokenizeGo fuel ((c :: cs).dropWhile (fun ch => ch != '\n')) (pos + run.length)
        else if (c = '>' || c = '<' || c = '=' || c = '!') && c2 = '=' then
          (tokenizeGo fuel cs2 (pos + 2)).map
            (fun ts => { t := .op (String.mk [c, c2]), pos := pos } :: ts)
        else
          match tokenizeSingle c pos with
          | .error e => .error e
          | .ok tok => (tokenizeGo fuel cs (pos + 1)).map (fun ts => tok :: ts)
      | [] =>
        match tokenizeSingle c pos with
        | .error e => .error e
        | .ok tok => (tokenizeGo fuel cs (pos + 1)).map (fun ts => tok :: ts)

/-- tokenize: one statement of text to a token list ending in EOF. -/
def tokenize (code : String) : Except EvalError (List Token) :=
  tokenizeGo (code.length + 1) code.data 0

/-- The character loop of the statement splitter, tracking string and escape
state; a completed line is kept when nonempty after trimming and not starting
with a hash. -/
def parseStatementsGo : List Char → List Char → Bool → Bool → List String → List String
  | [], cur, _, _, acc =>
      let stmt := trimStr (String.mk cur.reverse)
      if stmt != "" && !startsWithHashC stmt then acc ++ [stmt] else acc
  | c :: cs, cur, inString, escapeNext, acc =>
      if escapeNext then parseStatementsGo cs (c :: cur) inString false acc
      else if c = '\\' && inString then parseStatementsGo cs (c :: cur) inString true acc
      else if c = '"' then parseStatementsGo cs (c :: cur) (!inString) false acc
      else if c = '\n' then
        if inString then parseStatementsGo cs (c :: cur) inString false acc
        else
          let stmt := trimStr (String.mk cur.reverse)
          let acc2 := if stmt != "" && !startsWithHashC stmt then acc ++ [stmt] else acc
          parseStatementsGo cs [] false false acc2
      else parseStatementsGo cs (c :: cur) inString escapeNext acc

/-- parse_statements: split source into statement strings, respecting string
literals that may contain newlines and dropping blank and hash-comment lines. -/
def parseStatements (code : String) : List String :=
  parseStatementsGo code.data [] false false []

/-- An item of a regex character class: a single character or a range. -/
inductive ClsItem where
  | ch (c : Char)
  | range (a b : Char)

/-- A regex atom of the modelled re subset. -/
inductive RAtom where
  | ch (c : Char)
  | any
  | cls (neg : Bool) (items : List ClsItem)

/-- A quantifier attached to an atom. -/
inductive Quant where
  | one
  | star
  | plus
  | opt

/-- Scan the items of a character class up to the closing bracket; reaching
the end of the pattern first is the re.error for an unterminated set. -/
def parseClsItems : Nat → List Char → List ClsItem → Except String (List ClsItem × List Char)
  | 0, _, _ => .error "unterminated character set"
  | _ + 1, [], _ => .error "unterminated character set"
  | _ + 1, ']' :: cs, acc => .ok (acc.reverse, cs)
  | f + 1, a :: cs, acc =>
      match cs with
      | '-' :: b :: cs2 =>
        if b = ']' then .ok ((ClsItem.ch '-' :: ClsItem.ch a :: acc).reverse, cs2)
        else if a ≤ b then parseClsItems f cs2 (ClsItem.range a b :: acc)
        else .error "bad character range"
      | _ => parseClsItems f cs (ClsItem.ch a :: acc)

/-- Compile one regex atom from the head of the pattern. -/
def regexAtom (c : Char) (cs : List Char) : Except String (RAtom × List Char) :=
  if c = '.' then .ok (.any, cs)
  else if c = '\\' then
    match cs with
    | d :: t => .ok (.ch d, t)
    | [] => .error "bad escape (end of pattern)"
  else if c = '[' then
    let (neg, cs1) : Bool × List Char :=
      match cs with
      | '^' :: t => (true, t)
      | _ => (false, cs)
    match cs1 with
    | ']' :: t =>
      match parseClsItems (t.length + 1) t [ClsItem.ch ']'] with
      | .ok (items, rest) => .ok (.cls neg items, rest)
      | .error e => .error e
    | _ =>
      match parseClsItems (cs1.length + 1) cs1 [] with
      | .ok (items, rest) => .ok (.cls neg items, rest)
      | .error e => .error e
  else .ok (.ch c, cs)

/-- Compile a pattern into a sequence of quantified atoms. -/
def compilePatGo : Nat → List Char → Except String (List (RAtom × Quant))
  | 0, _ => .error "pattern too complex"
  | _ + 1, [] => .ok []
  | f + 1, c :: cs =>
    match regexAtom c cs with
    | .error e => .error e
    | .ok (a, rest) =>
      let step : Quant × List Char :=
        match rest with
        | '*' :: t => (.star, t)
        | '+' :: t => (.plus, t)
        | '?' :: t => (.opt, t)
        | _ => (.one, rest)
      (compilePatGo f step.2).map (fun es => (a, step.1) :: es)

/-- Membership of a character in a class item list. -/
def matchCls (items : List ClsItem) (c : Char) : Bool :=
  items.any (fun it =>
    match it with
    | .ch a => a == c
    | .range a b => decide (a ≤ c) && decide (c ≤ b))

/-- Whether an atom matches one character. -/
def matchAtom : RAtom → Char → Bool
  | .ch a, c => a == c
  | .any, c => c != '\n'
  | .cls neg items, c => if neg then !matchCls items c else matchCls items c

mutual

/-- Backtracking matcher for a compiled pattern against a prefix of the
input; existence of a match is order-independent, so this is equivalent to
the greedy search of re for the boolean result. -/
def matchHere : Nat → List (RAtom × Quant) → List Char → Bool
  | 0, _, _ => false
  | _ + 1, [], _ => true
  | f + 1, (a, .one) :: es, cs =>
      match cs with
      | c :: cs2 => matchAtom a c && matchHere f es cs2
      | [] => false
  | f + 1, (a, .opt) :: es, cs =>
      matchHere f es cs ||
        (match cs with
         | c :: cs2 => matchAtom a c && matchHere f es cs2
         | [] => false)
  | f + 1, (a, .star) :: es, cs => matchStar f a es cs
  | f + 1, (a, .plus) :: es, cs =>
      match cs with
      | c :: cs2 => matchAtom a c && matchStar f a es cs2
      | [] => false

/-- Match zero or more repetitions of an atom followed by the rest. -/
def matchStar : Nat → RAtom → List (RAtom × Quant) → List Char → Bool
  | 0, _, _, _ => false
  | f + 1, a, es, cs =>
      matchHere f es cs ||
        (match cs with
         | c :: cs2 => matchAtom a c && matchStar f a es cs2
         | [] => false)

end

/-- Fuel sufficient for the lexicographically decreasing matcher calls. -/
def reFuel (es : List (RAtom × Quant)) (cs : List Char) : Nat :=
  2 * (es.length + 1) * (cs.length + 2)

/-- Try the pattern at every start position, as re.search does. -/
def searchFrom : List (RAtom × Quant) → List Char → Bool
  | es, [] => matchHere (reFuel es []) es []
  | es, c :: cs => matchHere (reFuel es (c :: cs)) es (c :: cs) || searchFrom es cs

/-- re.search for the modelled subset: compile, then match anywhere. -/
def reSearch (pat s : String) : Except String Bool :=
  match compilePatGo (pat.length + 1) pat.data with
  | .error e => .error e
  | .ok es => .ok (searchFrom es s.data)

/-- The tilde operator step of parse_comparison: coerce the left operand to
str when needed, require a str right operand, compile and search the
pattern, mapping re.error to ValueError as the source does. -/
def regexMatch (left right : Value) : Except EvalError Value :=
  let l : String :=
    match left with
    | .str s => s
    | v => pyStr v
  match right with
  | .str pat =>
    match reSearch pat l with
    | .ok b => .ok (.bool b)
    | .error m => .error (.valueErr ("Invalid regex pattern " ++ pat ++ ": " ++ m))
  | _ => .error (.typeErr ("Regex pattern must be a string, got " ++ pyTypeName right))

/-- The operator dispatch of the parse_comparison loop body. -/
def applyCmpOp (op : String) (l r : Value) : Except EvalError Value :=
  if op = ">" then (pyGtB l r).map Value.bool
  else if op = "<" then (pyLtB l r).map Value.bool
  else if op = ">=" then (pyGeB l r).map Value.bool
  else if op = "<=" then (pyLeB l r).map Value.bool
  else if op = "==" then .ok (.bool (pyEqB l r))
  else if op = "!=" then .ok (.bool (!pyEqB l r))
  else regexMatch l r

/-- The plus case of the parse_additive loop body: JavaScript-like string
concatenation when either operand is a string, numeric addition otherwise. -/
def addValues (l r : Value) : Except EvalError Value :=
  if isStrV l || isStrV r then .ok (.str (pyStr l ++ pyStr r)) else pyAdd l r

/-- Evaluator state: token stream, parse cursor, Environment, and the sink
into which log writes (modelling stdout). -/
structure St where
  tokens : List Token
  idx : Nat
  vars : List (String × Value)
  output : List String

/-- Result of a parse step: an error, or a value with the updated state. -/
abbrev Res (α : Type) := Except EvalError (α × St)

/-- Token at an index, with the unreachable out-of-range default. -/
def tokAt (ts : List Token) (i : Nat) : Token := ts.getD i eofDefault

/-- current_token: the token at the cursor, or the last token once past end. -/
def curTokL (ts : List Token) (i : Nat) : Token :=
  if i < ts.length then tokAt ts i else ts.getLastD eofDefault

/-- consume_token: advance the cursor unless already at the last token. -/
def consumeIdx (ts : List Token) (i : Nat) : Nat :=
  if i < ts.length - 1 then i + 1 else i

def curTok (st : St) : Token := curTokL st.tokens st.idx

def consumeTok (st : St) : St := { st with idx := consumeIdx st.tokens st.idx }

/-- Environment lookup (first binding wins, as for a dict). -/
def lookupVar : List (String × Value) → String → Option Value
  | [], _ => none
  | (k, v) :: rest, name => if k = name then some v else lookupVar rest name

/-- Environment update: rebind in place or append, as dict assignment. -/
def updateVar : List (String × Value) → String → Value → List (String × Value)
  | [], name, v => [(name, v)]
  | (k, w) :: rest, name, v =>
      if k = name then (k, v) :: rest else (k, w) :: updateVar rest name v

/-- dict.update with a list of extra bindings. -/
def updateVars (vars : List (String × Value)) (extra : List (String × Value)) : List (String × Value) :=
  extra.foldl (fun vs p => updateVar vs p.1 p.2) vars

/-- perform_assignment: walk all but the last chain segment through
getattr (AttributeError on a missing link), then set the final property.
Mutation is modelled functionally: the updated root object is returned and
written back into the variable binding by the caller. -/
def performAssignment : Value → List String → Value → Except EvalError Value
  | obj, [], _ => .ok obj
  | obj, [p], v =>
      match obj with
      | .obj attrs => .ok (.obj (setAttr attrs p v))
      | _ => .error (.attrErr ("cannot set attribute " ++ p ++ " on " ++ pyTypeName obj))
  | obj, p :: rest, v =>
      match getAttrVal obj p with
      | none => .error (.attrErr ("Object has no attribute " ++ p))
      | some child =>
        match performAssignment child rest v with
        | .error e => .error e
        | .ok child2 =>
          match obj with
          | .obj attrs => .ok (.obj (setAttr attrs p child2))
          | _ => .error (.attrErr ("Object has no attribute " ++ p))

/-- The dot-chain skip of the _is_assignment lookahead. -/
def isAssignmentGo : Nat → List Token → Nat → Bool
  | 0, _, _ => false
  | f + 1, ts, i =>
    if (curTokL ts i).isDot then
      let i2 := consumeIdx ts i
      match (curTokL ts i2).identName with
      | some _ => isAssignmentGo f ts (consumeIdx ts i2)
      | none => false
    else (curTokL ts i).isOp "="

/-- _is_assignment: pure lookahead (the source restores the cursor) that
recognizes IDENTIFIER (DOT IDENTIFIER)* followed by the = operator. -/
def isAssignment (st : St) : Bool :=
  match (curTokL st.tokens st.idx).identName with
  | some _ => isAssignmentGo (st.tokens.length + 2) st.tokens (consumeIdx st.tokens st.idx)
  | none => false

/-- The builtin dispatch at the end of parse_function_call: len and log are
built in; any other name raises NameError. -/
def applyFunction (name : String) (args : List Value) (st : St) : Res Value :=
  if name = "len" then
    match args with
    | [v] => (pyLen v).map (fun n => (n, st))
    | _ => .error (.typeErr ("len() takes exactly one argument (" ++ toString args.length ++ " given)"))
  else if name = "log" then
    match args with
    | [v] => .ok (v, { st with output := st.output ++ [pyStr v] })
    | _ => .error (.typeErr ("log() takes exactly one argument (" ++ toString args.length ++ " given)"))
  else .error (.nameErr ("Function " ++ name ++ " is not defined"))

/-- The comparison operators recognized by the parse_comparison loop. -/
def Token.cmpOpName (tok : Token) : Option String :=
  match tok.t with
  | .op s => if [">", "<", ">=", "<=", "==", "!=", "~"].contains s then some s else none
  | _ => none

/-- The additive operators recognized by the parse_additive loop. -/
def Token.addOpName (tok : Token) : Option String :=
  match tok.t with
  | .op s => if ["+", "-"].contains s then some s else none
  | _ => none

/-- The multiplicative operators recognized by the parse_multiplicative loop. -/
def Token.mulOpName (tok : Token) : Option String :=
  match tok.t with
  | .op s => if ["*", "/"].contains s then some s else none
  | _ => none

mutual

/-- parse_expression: entry into the expression grammar. -/
def parseExpression : Nat → St → Res Value
  | 0, _ => .error .recursionErr
  | f + 1, st => parseAssignment f st

/-- parse_assignment: dispatch on the _is_assignment lookahead. -/
def parseAssignment : Nat → St → Res Value
  | 0, _ => .error .recursionErr
  | f + 1, st =>
    if isAssignment st then parseAssignmentExpression f st
    else parseConditionalExpression f st

/-- parse_conditional_expression: an if expression or the or level. -/
def parseConditionalExpression : Nat → St → Res Value
  | 0, _ => .error .recursionErr
  | f + 1, st =>
    if (curTok st).isKw "if" then parseIfStatement f st
    else parseOrExpression f st

/-- The property-chain collector of _parse_assignment_expression. -/
def parseTargetChain : Nat → St → List String → Except EvalError (List String × St)
  | 0, _, _ => .error .recursionErr
  | f + 1, st, acc =>
    if (curTok st).isDot then
      let st2 := consumeTok st
      match (curTok st2).identName with
      | some p => parseTargetChain f (consumeTok st2) (acc ++ [p])
      | none => .error (.syntaxErr "Expected property name after .")
    else .ok (acc, st)

/-- _parse_assignment_expression: target identifier with optional dot chain,
the = operator, the right-hand side, then the binding or property write. -/
def parseAssignmentExpression : Nat → St → Res Value
  | 0, _ => .error .recursionErr
  | f + 1, st =>
    match (curTok st).identName with
    | none => .error (.syntaxErr "Assignment target must start with an identifier")
    | some name =>
      match parseTargetChain f (consumeTok st) [] with
      | .error e => .error e
      | .ok (chain, st2) =>
        if (curTok st2).isOp "=" then
          let st3 := consumeTok st2
          match parseConditionalExpression f st3 with
          | .error e => .error e
          | .ok (value, st4) =>
            match chain with
            | [] => .ok (value, { st4 with vars := updateVar st4.vars name value })
            | _ =>
              match lookupVar st4.vars name with
              | none => .error (.nameErr ("Variable " ++ name ++ " is not defined"))
              | some obj =>
                match performAssignment obj chain value with
                | .error e => .error e
                | .ok obj2 => .ok (value, { st4 with vars := updateVar st4.vars name obj2 })
        else .error (.syntaxErr "Expected = in assignment")

/-- parse_or_expression head: parse the and level, then the or loop. -/
def parseOrExpression : Nat → St → Res Value
  | 0, _ => .error .recursionErr
  | f + 1, st =>
    match parseAndExpression f st with
    | .error e => .error e
    | .ok (left, st2) => parseOrLoop f left st2

/-- The while loop of parse_or_expression; both operands are computed before
the combinator applies. -/
def parseOrLoop : Nat → Value → St → Res Value
  | 0, _, _ => .error .recursionErr
  | f + 1, left, st =>
    if (curTok st).isKw "or" then
      match parseAndExpression f (consumeTok st) with
      | .error e => .error e
      | .ok (right, st2) => parseOrLoop f (pyOr left right) st2
    else .ok (left, st)

/-- parse_and_expression head: parse the comparison level, then the loop. -/
def parseAndExpression : Nat → St → Res Value
  | 0, _ => .error .recursionErr
  | f + 1, st =>
    match parseComparison f st with
    | .error e => .error e
    | .ok (left, st2) => parseAndLoop f left st2

/-- The while loop of parse_and_expression; both operands are computed
before the combinator applies. -/
def parseAndLoop : Nat → Value → St → Res Value
  | 0, _, _ => .error .recursionErr
  | f + 1, left, st =>
    if (curTok st).isKw "and" then
      match parseComparison f (consumeTok st) with
      | .error e => .error e
      | .ok (right, st2) => parseAndLoop f (pyAnd left right) st2
    else .ok (left, st)

/-- parse_comparison head. -/
def parseComparison : Nat → St → Res Value
  | 0, _ => .error .recursionErr
  | f + 1, st =>
    match parseAdditive f st with
    | .error e => .error e
    | .ok (left, st2) => parseComparisonLoop f left st2

/-- The while loop of parse_comparison, folding the comparison operators
(including the regex match) left to right. -/
def parseComparisonLoop : Nat → Value → St → Res Value
  | 0, _, _ => .error .recursionErr
  | f + 1, left, st =>
    match (curTok st).cmpOpName with
    | none => .ok (left, st)
    | some op =>
      match parseAdditive f (consumeTok st) with
      | .error e => .error e
      | .ok (right, st2) =>
        match applyCmpOp op left right with
        | .error e => .error e
        | .ok left2 => parseComparisonLoop f left2 st2

/-- parse_additive head. -/
def parseAdditive : Nat → St → Res Value
  | 0, _ => .error .recursionErr
  | f + 1, st =>
    match parseMultiplicative f st with
    | .error e => .error e
    | .ok (left, st2) => parseAdditiveLoop f left st2

/-- The while loop of parse_additive: plus with the string-concatenation
special case, minus numeric. -/
def parseAdditiveLoop : Nat → Value → St → Res Value
  | 0, _, _ => .error .recursionErr
  | f + 1, left, st =>
    match (curTok st).addOpName with
    | none => .ok (left, st)
    | some op =>
      match parseMultiplicative f (consumeTok st) with
      | .error e => .error e
      | .ok (right, st2) =>
        match (if op = "+" then addValues left right else pySub left right) with
        | .error e => .error e
        | .ok left2 => parseAdditiveLoop f left2 st2

/-- parse_multiplicative head. -/
def parseMultiplicative : Nat → St → Res Value
  | 0, _ => .error .recursionErr
  | f + 1, st =>
    match parseUnary f st with
    | .error e => .error e
    | .ok (left, st2) => parseMultiplicativeLoop f left st2

/-- The while loop of parse_multiplicative. -/
def parseMultiplicativeLoop : Nat → Value → St → Res Value
  | 0, _, _ => .error .recursionErr
  | f + 1, left, st =>
    match (curTok st).mulOpName with
    | none => .ok (left, st)
    | some op =>
      match parseUnary f (consumeTok st) with
      | .error e => .error e
      | .ok (right, st2) =>
        match (if op = "*" then pyMul left right else pyDiv left right) with
        | .error e => .error e
        | .ok left2 => parseMultiplicativeLoop f left2 st2

/-- parse_unary: unary minus and logical not, else primary. -/
def parseUnary : Nat → St → Res Value
  | 0, _ => .error .recursionErr
  | f + 1, st =>
    if (curTok st).isOp "-" then
      match parseUnary f (consumeTok st) with
      | .error e => .error e
      | .ok (v, st2) => (pyNeg v).map (fun w => (w, st2))
    else if (curTok st).isKw "not" then
      match parseUnary f (consumeTok st) with
      | .error e => .error e
      | .ok (v, st2) => .ok (.bool (!truthy v), st2)
    else parsePrimary f st

/-- The dot-chain read loop of parse_primary: getattr through the chain,
AttributeError on a missing attribute. -/
def parseAttrChain : Nat → Value → St → Res Value
  | 0, _, _ => .error .recursionErr
  | f + 1, obj, st =>
    if (curTok st).isDot then
      let st2 := consumeTok st
      match (curTok st2).identName with
      | none => .error (.syntaxErr "Expected property name after .")
      | some p =>
        let st3 := consumeTok st2
        match getAttrVal obj p with
        | some v => parseAttrChain f v st3
        | none => .error (.attrErr ("Object has no attribute " ++ p))
    else .ok (obj, st)

/-- The indexing/slicing postfix loop of parse_primary. -/
def parseBracketLoop : Nat → Value → St → Res Value
  | 0, _, _ => .error .recursionErr
  | f + 1, v, st =>
    if (curTok st).isLbracket then
      match parseIndexingOrSlicing f v st with
      | .error e => .error e
      | .ok (v2, st2) => parseBracketLoop f v2 st2
    else .ok (v, st)

/-- parse_primary: literals, keywords, identifiers with call or dot chain,
parenthesized expressions (an unclosed parenthesis is silently accepted, as
in the source), followed by the bracket postfix loop. -/
def parsePrimary : Nat → St → Res Value
  | 0, _ => .error .recursionErr
  | f + 1, st =>
    let token := curTok st
    let base : Res Value :=
      match token.t with
      | .number v => .ok (v, consumeTok st)
      | .strTok s => .ok (.str s, consumeTok st)
      | .keyword k =>
        if k = "True" || k = "true" then .ok (.bool true, consumeTok st)
        else if k = "False" || k = "false" then .ok (.bool false, consumeTok st)
        else if k = "null" then .ok (.null, consumeTok st)
        else if k = "if" then parseIfStatement f st
        else .error (.syntaxErr ("Unexpected token: " ++ tokValueStr token))
      | .ident name =>
        let st1 := consumeTok st
        if (curTok st1).isLparen then parseFunctionCall f name st1
        else
          match lookupVar st1.vars name with
          | none => .error (.nameErr ("Variable " ++ name ++ " is not defined"))
          | some obj => parseAttrChain f obj st1
      | .lparen =>
        match parseExpression f (consumeTok st) with
        | .error e => .error e
        | .ok (v, st2) =>
          .ok (v, if (curTok st2).isRparen then consumeTok st2 else st2)
      | _ => .error (.syntaxErr ("Unexpected token: " ++ tokValueStr token))
    match base with
    | .error e => .error e
    | .ok (v, st2) => parseBracketLoop f v st2

/-- parse_indexing_or_slicing: bare index, or a slice in any of the four
optional-bound forms, on a subscriptable value. -/
def parseIndexingOrSlicing : Nat → Value → St → Res Value
  | 0, _, _ => .error .recursionErr
  | f + 1, obj, st =>
    let st1 := consumeTok st
    if !isStrV obj then
      .error (.typeErr (pyTypeName obj ++ " object is not subscriptable"))
    else if (curTok st1).isColon then
      let st2 := consumeTok st1
      if (curTok st2).isRbracket then
        (pySliceVal obj none none).map (fun v => (v, consumeTok st2))
      else
        match parseOrExpression f st2 with
        | .error e => .error e
        | .ok (endv, st3) =>
          if (curTok st3).isRbracket then
            (pySliceVal obj none (some endv)).map (fun v => (v, consumeTok st3))
          else .error (.syntaxErr "Expected ] after slice end index")
    else
      match parseOrExpression f st1 with
      | .error e => .error e
      | .ok (first, st2) =>
        if (curTok st2).isColon then
          let st3 := consumeTok st2
          if (curTok st3).isRbracket then
            (pySliceVal obj (some first) none).map (fun v => (v, consumeTok st3))
          else
            match parseOrExpression f st3 with
            | .error e => .error e
            | .ok (endv, st4) =>
              if (curTok st4).isRbracket then
                (pySliceVal obj (some first) (some endv)).map (fun v => (v, consumeTok st4))
              else .error (.syntaxErr "Expected ] after slice end index")
        else
          if (curTok st2).isRbracket then
            (pyGetItem obj first).map (fun v => (v, consumeTok st2))
          else .error (.syntaxErr "Expected ] after index")

/-- The argument loop of parse_function_call: expressions until the closing
parenthesis, consuming a comma after an argument when present. -/
def parseCallArgs : Nat → List Value → St → Except EvalError (List Value × St)
  | 0, _, _ => .error .recursionErr
  | f + 1, args, st =>
    if (curTok st).isRparen then .ok (args, st)
    else
      match parseExpression f st with
      | .error e => .error e
      | .ok (v, st2) =>
        let st3 := if (curTok st2).isComma then consumeTok st2 else st2
        parseCallArgs f (args ++ [v]) st3

/-- parse_function_call: consume the opening parenthesis, evaluate the
arguments left to right, consume the closing parenthesis, dispatch. -/
def parseFunctionCall : Nat → String → St → Res Value
  | 0, _, _ => .error .recursionErr
  | f + 1, name, st =>
    match parseCallArgs f [] (consumeTok st) with
    | .error e => .error e
    | .ok (args, st2) => applyFunction name args (consumeTok st2)

/-- parse_if_statement: condition, mandatory then, eagerly parsed (hence
eagerly evaluated) then branch and optional else branch, then the selection
of the returned value by the truthiness of the condition. -/
def parseIfStatement : Nat → St → Res Value
  | 0, _ => .error .recursionErr
  | f + 1, st =>
    match parseExpression f (consumeTok st) with
    | .error e => .error e
    | .ok (cond, st2) =>
      if (curTok st2).isKw "then" then
        let st3 := consumeTok st2
        let branchA : Res Value :=
          if !(curTok st3).isEof && !(curTok st3).isKw "else" then parseExpression f st3
          else .ok (.null, st3)
        match branchA with
        | .error e => .error e
        | .ok (ifv, st4) =>
          if (curTok st4).isKw "else" then
            let st5 := consumeTok st4
            let branchB : Res Value :=
              if !(curTok st5).isEof then parseExpression f st5
              else .ok (.null, st5)
            match branchB with
            | .error e => .error e
            | .ok (elsev, st6) => .ok (if truthy cond then ifv else elsev, st6)
          else .ok (if truthy cond then ifv else .null, st4)
      else .error (.syntaxErr "Expected then keyword after if condition")

/-- parse_statement: an if statement or an expression. -/
def parseStatement : Nat → St → Res Value
  | 0, _ => .error .recursionErr
  | f + 1, st =>
    if (curTok st).isKw "if" then parseIfStatement f st
    else parseExpression f st

end

/-- Fuel that dominates the descent depth of one statement: each grammar
level costs a constant amount of fuel per consumed token. -/
def stmtFuel (ts : List Token) : Nat := 16 * ts.length + 64

/-- The exception classification of evaluate: NameError, AttributeError,
TypeError, ValueError, SyntaxError and ZeroDivisionError are re-raised
unchanged; every other exception is wrapped into a generic one naming the
offending statement. -/
def wrapEvalErr (e : EvalError) (stmt : String) : EvalError :=
  match e with
  | .nameErr m => .nameErr m
  | .attrErr m => .attrErr m
  | .typeErr m => .typeErr m
  | .valueErr m => .valueErr m
  | .syntaxErr m => .syntaxErr m
  | .zeroDivErr m => .zeroDivErr m
  | .indexErr m => .genericErr ("Error in statement " ++ stmt ++ ": " ++ m)
  | .genericErr m => .genericErr ("Error in statement " ++ stmt ++ ": " ++ m)
  | .recursionErr => .genericErr ("Error in statement " ++ stmt ++ ": maximum recursion depth exceeded")

/-- The statement loop of evaluate: tokenize each statement, reset the
cursor, parse (which evaluates), remember the last value. -/
def runStatements : List String → Value → St → Res Value
  | [], last, st => .ok (last, st)
  | s :: rest, _, st =>
    match tokenize s with
    | .error e => .error (wrapEvalErr e s)
    | .ok ts =>
      match parseStatement (stmtFuel ts) { st with tokens := ts, idx := 0 } with
      | .error e => .error (wrapEvalErr e s)
      | .ok (v, st2) => runStatements rest v st2

/-- evaluate: reset parser state, merge extra bindings, split the source
into statements, and run them in order; Null when nothing is executable. -/
def evaluate (code : String) (extra : List (String × Value)) (st : St) : Res Value :=
  let st1 : St := { st with tokens := [], idx := 0 }
  let st2 : St := { st1 with vars := updateVars st1.vars extra }
  let stmts := parseStatements code
  if stmts.isEmpty then .ok (.null, st2)
  else runStatements stmts .null st2

/-- The value of an evaluate call on a state (the returned Python value). -/
def evalValue (code : String) (st : St) : Except EvalError Value :=
  (evaluate code [] st).map (fun p => p.1)

/-- The log output written during an evaluate call. -/
def evalOutput (code : String) (st : St) : Except EvalError (List String) :=
  (evaluate code [] st).map (fun p => p.2.output)

/-- Validator state: the mirror grammar reads only the token stream and the
cursor (the _verify functions never touch the Environment or the sink). -/
structure VSt where
  tokens : List Token
  idx : Nat

/-- Result of a validation step. -/
abbrev VRes := Except EvalError VSt

def curV (v : VSt) : Token := curTokL v.tokens v.idx

def consV (v : VSt) : VSt := { v with idx := consumeIdx v.tokens v.idx }

mutual

/-- _verify_statement_syntax: a bare IDENTIFIER = head is checked as an
assignment (note: a dot chain before = is not recognized here), otherwise
the text is checked as one expression; trailing tokens are an error. -/
def verifyStatementS : Nat → VSt → VRes
  | 0, _ => .error .recursionErr
  | f + 1, v =>
    let head : VRes :=
      if v.idx + 2 < v.tokens.length
          && (tokAt v.tokens v.idx).isIdent
          && (tokAt v.tokens (v.idx + 1)).isOp "=" then
        verifyExpressionS f (consV (consV v))
      else verifyExpressionS f v
    match head with
    | .error e => .error e
    | .ok v2 =>
      if (curV v2).isEof then .ok v2
      else .error (.syntaxErr ("Unexpected token after complete expression: " ++ tokValueStr (curV v2)))

/-- _verify_expression_syntax. -/
def verifyExpressionS : Nat → VSt → VRes
  | 0, _ => .error .recursionErr
  | f + 1, v => verifyOrS f v

/-- _verify_or_expression_syntax head. -/
def verifyOrS : Nat → VSt → VRes
  | 0, _ => .error .recursionErr
  | f + 1, v =>
    match verifyAndS f v with
    | .error e => .error e
    | .ok v2 => verifyOrLoopS f v2

/-- The while loop of _verify_or_expression_syntax. -/
def verifyOrLoopS : Nat → VSt → VRes
  | 0, _ => .error .recursionErr
  | f + 1, v =>
    if (curV v).isKw "or" then
      match verifyAndS f (consV v) with
      | .error e => .error e
      | .ok v2 => verifyOrLoopS f v2
    else .ok v

/-- _verify_and_expression_syntax head. -/
def verifyAndS : Nat → VSt → VRes
  | 0, _ => .error .recursionErr
  | f + 1, v =>
    match verifyEqualityS f v with
    | .error e => .error e
    | .ok v2 => verifyAndLoopS f v2

/-- The while loop of _verify_and_expression_syntax. -/
def verifyAndLoopS : Nat → VSt → VRes
  | 0, _ => .error .recursionErr
  | f + 1, v =>
    if (curV v).isKw "and" then
      match verifyEqualityS f (consV v) with
      | .error e => .error e
      | .ok v2 => verifyAndLoopS f v2
    else .ok v

/-- _verify_equality_expression_syntax head (the mirror grammar splits
equality from the other comparisons, unlike the evaluator). -/
def verifyEqualityS : Nat → VSt → VRes
  | 0, _ => .error .recursionErr
  | f + 1, v =>
    match verifyComparisonS f v with
    | .error e => .error e
    | .ok v2 => verifyEqualityLoopS f v2

/-- The while loop of _verify_equality_expression_syntax. -/
def verifyEqualityLoopS : Nat → VSt → VRes
  | 0, _ => .error .recursionErr
  | f + 1, v =>
    if (curV v).isOp "==" || (curV v).isOp "!=" then
      match verifyComparisonS f (consV v) with
      | .error e => .error e
      | .ok v2 => verifyEqualityLoopS f v2
    else .ok v

/-- _verify_comparison_expression_syntax head. -/
def verifyComparisonS : Nat → VSt → VRes
  | 0, _ => .error .recursionErr
  | f + 1, v =>
    match verifyRegexS f v with
    | .error e => .error e
    | .ok v2 => verifyComparisonLoopS f v2

/-- The while loop of _verify_comparison_expression_syntax. -/
def verifyComparisonLoopS : Nat → VSt → VRes
  | 0, _ => .error .recursionErr
  | f + 1, v =>
    if (curV v).isOp "<" || (curV v).isOp ">" || (curV v).isOp "<=" || (curV v).isOp ">=" then
      match verifyRegexS f (consV v) with
      | .error e => .error e
      | .ok v2 => verifyComparisonLoopS f v2
    else .ok v

/-- _verify_regex_expression_syntax head. -/
def verifyRegexS : Nat → VSt → VRes
  | 0, _ => .error .recursionErr
  | f + 1, v =>
    match verifyAdditiveS f v with
    | .error e => .error e
    | .ok v2 => verifyRegexLoopS f v2

/-- The while loop of _verify_regex_expression_syntax. -/
def verifyRegexLoopS : Nat → VSt → VRes
  | 0, _ => .error .recursionErr
  | f + 1, v =>
    if (curV v).isOp "~" then
      match verifyAdditiveS f (consV v) with
      | .error e => .error e
      | .ok v2 => verifyRegexLoopS f v2
    else .ok v

/-- _verify_additive_expression_syntax head. -/
def verifyAdditiveS : Nat → VSt → VRes
  | 0, _ => .error .recursionErr
  | f + 1, v =>
    match verifyMultiplicativeS f v with
    | .error e => .error e
    | .ok v2 => verifyAdditiveLoopS f v2

/-- The while loop of _verify_additive_expression_syntax. -/
def verifyAdditiveLoopS : Nat → VSt → VRes
  | 0, _ => .error .recursionErr
  | f + 1, v =>
    if (curV v).isOp "+" || (curV v).isOp "-" then
      match verifyMultiplicativeS f (consV v) with
      | .error e => .error e
      | .ok v2 => verifyAdditiveLoopS f v2
    else .ok v

/-- _verify_multiplicative_expression_syntax head (the mirror grammar also
lists a percent operator, which the tokenizer never produces). -/
def verifyMultiplicativeS : Nat → VSt → VRes
  | 0, _ => .error .recursionErr
  | f + 1, v =>
    match verifyUnaryS f v with
    | .error e => .error e
    | .ok v2 => verifyMultiplicativeLoopS f v2

/-- The while loop of _verify_multiplicative_expression_syntax. -/
def verifyMultiplicativeLoopS : Nat → VSt → VRes
  | 0, _ => .error .recursionErr
  | f + 1, v =>
    if (curV v).isOp "*" || (curV v).isOp "/" || (curV v).isOp "%" then
      match verifyUnaryS f (consV v) with
      | .error e => .error e
      | .ok v2 => verifyMultiplicativeLoopS f v2
    else .ok v

/-- _verify_unary_expression_syntax: not recurses; a leading plus or minus
must have an operand after it. -/
def verifyUnaryS : Nat → VSt → VRes
  | 0, _ => .error .recursionErr
  | f + 1, v =>
    if (curV v).isKw "not" then verifyUnaryS f (consV v)
    else if (curV v).isOp "+" || (curV v).isOp "-" then
      if v.idx + 1 ≥ v.tokens.length || (tokAt v.tokens (v.idx + 1)).isEof then
        .error (.syntaxErr ("Unary operator " ++ tokValueStr (curV v) ++ " without operand"))
      else verifyUnaryS f (consV v)
    else verifyPrimaryS f v

/-- The dot-chain check inside _verify_primary_syntax. -/
def verifyDotChainS : Nat → VSt → VRes
  | 0, _ => .error .recursionErr
  | f + 1, v =>
    if (curV v).isDot then
      let v2 := consV v
      if (curV v2).isIdent then verifyDotChainS f (consV v2)
      else .error (.syntaxErr "Expected property name after .")
    else .ok v

/-- The bracket postfix check loop of _verify_primary_syntax. -/
def verifyBracketLoopS : Nat → VSt → VRes
  | 0, _ => .error .recursionErr
  | f + 1, v =>
    if (curV v).isLbracket then
      match verifyIndexingS f v with
      | .error e => .error e
      | .ok v2 => verifyBracketLoopS f v2
    else .ok v

/-- _verify_primary_syntax: literal, boolean or null keyword, if expression,
identifier with call or dot chain, or parenthesized expression (the mirror
grammar does require a closing parenthesis), then bracket postfixes. -/
def verifyPrimaryS : Nat → VSt → VRes
  | 0, _ => .error .recursionErr
  | f + 1, v =>
    let token := curV v
    let base : VRes :=
      match token.t with
      | .number _ => .ok (consV v)
      | .strTok _ => .ok (consV v)
      | .keyword k =>
        if k = "True" || k = "true" || k = "False" || k = "false" || k = "null" then
          .ok (consV v)
        else if k = "if" then verifyIfS f v
        else .error (.syntaxErr ("Unexpected token: " ++ tokValueStr token))
      | .ident _ =>
        let v1 := consV v
        if (curV v1).isLparen then verifyFunctionCallS f v1
        else verifyDotChainS f v1
      | .lparen =>
        match verifyExpressionS f (consV v) with
        | .error e => .error e
        | .ok v2 =>
          if (curV v2).isRparen then .ok (consV v2)
          else .error (.syntaxErr "Expected closing parenthesis")
      | _ => .error (.syntaxErr ("Unexpected token: " ++ tokValueStr token))
    match base with
    | .error e => .error e
    | .ok v2 => verifyBracketLoopS f v2

/-- The comma-separated argument loop of _verify_function_call_syntax, with
its dedicated trailing-comma error. -/
def verifyCallArgsLoopS : Nat → VSt → VRes
  | 0, _ => .error .recursionErr
  | f + 1, v =>
    if (curV v).isComma then
      let v2 := consV v
      if (curV v2).isRparen then .error (.syntaxErr "Trailing comma in function call")
      else
        match verifyExpressionS f v2 with
        | .error e => .error e
        | .ok v3 => verifyCallArgsLoopS f v3
    else .ok v

/-- _verify_function_call_syntax. -/
def verifyFunctionCallS : Nat → VSt → VRes
  | 0, _ => .error .recursionErr
  | f + 1, v =>
    let v1 := consV v
    let afterArgs : VRes :=
      if (curV v1).isRparen then .ok v1
      else
        match verifyExpressionS f v1 with
        | .error e => .error e
        | .ok v2 => verifyCallArgsLoopS f v2
    match afterArgs with
    | .error e => .error e
    | .ok v2 =>
      if (curV v2).isRparen then .ok (consV v2)
      else .error (.syntaxErr "Expected closing parenthesis in function call")

/-- _verify_if_statement_syntax: condition, mandatory then, mandatory then
branch, optional else with mandatory branch. -/
def verifyIfS : Nat → VSt → VRes
  | 0, _ => .error .recursionErr
  | f + 1, v =>
    match verifyExpressionS f (consV v) with
    | .error e => .error e
    | .ok v2 =>
      if (curV v2).isKw "then" then
        let v3 := consV v2
        if (curV v3).isEof then .error (.syntaxErr "Incomplete if statement: missing then branch")
        else
          match verifyExpressionS f v3 with
          | .error e => .error e
          | .ok v4 =>
            if (curV v4).isKw "else" then
              let v5 := consV v4
              if (curV v5).isEof then .error (.syntaxErr "Incomplete if statement: missing else branch")
              else verifyExpressionS f v5
            else .ok v4
      else .error (.syntaxErr "Expected then keyword after if condition")

/-- _verify_indexing_syntax: a first expression is mandatory (so a slice
with an omitted start index fails the mirror grammar), then an optional
colon with an optional end expression, then the closing bracket. -/
def verifyIndexingS : Nat → VSt → VRes
  | 0, _ => .error .recursionErr
  | f + 1, v =>
    match verifyExpressionS f (consV v) with
    | .error e => .error e
    | .ok v2 =>
      let afterSlice : VRes :=
        if (curV v2).isColon then
          let v3 := consV v2
          if !(curV v3).isRbracket then verifyExpressionS f v3
          else .ok v3
        else .ok v2
      match afterSlice with
      | .error e => .error e
      | .ok v3 =>
        if (curV v3).isRbracket then .ok (consV v3)
        else .error (.syntaxErr "Expected closing bracket")

end

/-- The per-statement check loop of verify: tokenize, then run the mirror
grammar over the token stream. -/
def checkStmts : List String → Except EvalError Unit
  | [] => .ok ()
  | s :: rest =>
    match tokenize s with
    | .error e => .error e
    | .ok ts =>
      match verifyStatementS (stmtFuel ts) { tokens := ts, idx := 0 } with
      | .error e => .error e
      | .ok _ => checkStmts rest

/-- The whole checking phase of verify on a source text (the part inside
the try block that can raise); it reads no evaluator state. -/
def verifyCheck (code : String) : Except EvalError Unit :=
  checkStmts (parseStatements code)

/-- Which exception classes verify downgrades to false: SyntaxError
(MalformedSyntax) and ValueError (InvalidPattern). -/
def isSyntaxClassErr : EvalError → Bool
  | .syntaxErr _ => true
  | .valueErr _ => true
  | _ => false

/-- Whether checking a source fails with a syntax-class exception. -/
def checkFailsSyntactically (code : String) : Bool :=
  match verifyCheck code with
  | .error e => isSyntaxClassErr e
  | .ok _ => false

/-- verify: snapshot the parser state and the Environment, reset and merge
the extra bindings, run the non-executing check, classify the outcome, and
unconditionally restore the snapshot (the finally block). -/
def verify (code : String) (extra : List (String × Value)) (st : St) : Bool × St :=
  let originalTokens := st.tokens
  let originalIdx := st.idx
  let originalVars := st.vars
  let st1 : St := { st with tokens := [], idx := 0 }
  let st2 : St := { st1 with vars := updateVars st1.vars extra }
  let result : Bool :=
    match verifyCheck code with
    | .ok _ => true
    | .error e => if isSyntaxClassErr e then false else true
  (result, { st2 with tokens := originalTokens, idx := originalIdx, vars := originalVars })

/-- A concrete freshly constructed evaluator state: the Environment holds
the construction-time day, month and year captured from the host clock. -/
def st0 : St :=
  { tokens := [], idx := 0
    vars := [("day", .int 12), ("month", .int 10), ("year", .int 2026)]
    output := [] }

/-- The state of an evaluator that was additionally given a host user
object binding (an object with no attributes yet). -/
def stUser : St := { st0 with vars := st0.vars ++ [("user", .obj [])] }

/-- Modelled from the spec: the host-supplied function registry of sections
3 and 6 (a name to native-callback mapping supplied at construction).  The
repository core has no registry implementation (its only extension point is
a subclass override in the playground HTTP server), so the registry-aware
call dispatch below follows the words of section 4.3: builtins first, then
the registry, then UnknownFunction. -/
def Registry : Type := List (String × (List Value → Except EvalError Value))

/-- Registry lookup by function name. -/
def lookupReg : Registry → String → Option (List Value → Except EvalError Value)
  | [], _ => none
  | (k, f) :: rest, name => if k = name then some f else lookupReg rest name

/-- Modelled from the spec: the call dispatch of section 4.3 with a host
registry; identical to applyFunction except that unknown names consult the
registry before failing. -/
def specDispatch (reg : Registry) (name : String) (args : List Value) (st : St) : Res Value :=
  if name = "len" then
    match args with
    | [v] => (pyLen v).map (fun n => (n, st))
    | _ => .error (.typeErr ("len() takes exactly one argument (" ++ toString args.length ++ " given)"))
  else if name = "log" then
    match args with
    | [v] => .ok (v, { st with output := st.output ++ [pyStr v] })
    | _ => .error (.typeErr ("log() takes exactly one argument (" ++ toString args.length ++ " given)"))
  else
    match lookupReg reg name with
    | some f => (f args).map (fun v => (v, st))
    | none => .error (.nameErr ("Function " ++ name ++ " is not defined"))

/-- The token list of a statement (for building concrete parser states). -/
def toksOf (s : String) : List Token := (tokenize s).toOption.getD []

/-- A bare parser state positioned at the start of a given statement. -/
def stAt (s : String) (i : Nat) : St :=
  { tokens := toksOf s, idx := i, vars := [], output := [] }

/-- Claim C1: the claim states that verify returns true for every statement
the evaluator grammar accepts, in particular a property-chain assignment
such as user.department = "IT".  The code contradicts this: evaluate
executes that statement successfully (returning "IT" and setting the
property) while verify returns false, because the mirror grammar only
recognizes assignments whose target is a bare identifier immediately
followed by =, and then chokes on the = left after the dot chain. -/
theorem c1_verify_rejects_executable_chain_assignment :
    evalValue "user.department = \"IT\"" stUser = .ok (.str "IT")
    ∧ (evaluate "user.department = \"IT\"" [] stUser).map (fun p => lookupVar p.2.vars "user")
        = .ok (some (.obj [("department", .str "IT")]))
    ∧ (verify "user.department = \"IT\"" [] stUser).1 = false :=
  ⟨rfl, rfl, rfl⟩

/-- Claim C5: a source whose only content is comments or blank lines makes
evaluate return Null — true for hash comments and empty sources, but false
for a line consisting of a JavaScript-style comment: the statement splitter
drops only hash-prefixed lines, so the slash-slash line survives as a
statement, tokenizes to a bare EOF, and parse_primary raises a syntax
error; the claim (and the spec, whose lexer does treat slash-slash as a
comment) says Null is returned. -/
theorem c5_comment_only_source_behavior :
    evalValue "# hello" st0 = .ok .null
    ∧ evalValue "" st0 = .ok .null
    ∧ parseStatements "// hello" = ["// hello"]
    ∧ evalValue "// hello" st0 = .error (.syntaxErr "Unexpected token: None") :=
  ⟨rfl, rfl, rfl, rfl⟩

/-- Claim C7: verify restores the token stream, the parse cursor and the
Environment from the snapshot taken on entry, unconditionally (the source
does this in a finally block), so the state it returns is exactly the state
it was given, for every input text and every extra-binding list. -/
theorem c7_verify_restores_state :
    ∀ (code : String) (extra : List (String × Value)) (st : St),
      (verify code extra st).2 = st :=
  fun _ _ _ => rfl

/-- Claim C9: on integer operands the plus, minus and times operators of
the additive and multiplicative loops yield integers, while division always
yields a float value (modelled as an exact fraction) even when exact; the
two spec examples evaluate to the integer 6 and the float 6.0. -/
theorem c9_integer_arithmetic_and_float_division :
    (∀ a b : Int, addValues (.int a) (.int b) = .ok (.int (a + b)))
    ∧ (∀ a b : Int, pySub (.int a) (.int b) = .ok (.int (a - b)))
    ∧ (∀ a b : Int, pyMul (.int a) (.int b) = .ok (.int (a * b)))
    ∧ (∀ a b : Int, b ≠ 0 →
        pyDiv (.int a) (.int b) = .ok (.float (PyQ.divQ (PyQ.ofInt a) (PyQ.ofInt b))))
    ∧ evalValue "3+3" st0 = .ok (.int 6)
    ∧ evalValue "12/2" st0 = .ok (.float { num := 6, den := 1 }) := by
  refine ⟨fun a b => rfl, fun a b => rfl, fun a b => rfl, fun a b hb => ?_, rfl, rfl⟩
  simp [pyDiv, numQ, PyQ.ofInt, hb]

/-- Witness for C9: the division part applied at 12 and 2, with the result
evaluating to the float 6.0. -/
theorem c9_witness :
    pyDiv (.int 12) (.int 2) = .ok (.float { num := 6, den := 1 }) :=
  c9_integer_arithmetic_and_float_division.2.2.2.1 12 2 (by decide)

/-- Claim C10: the regex-match step of parse_comparison coerces the left
operand to its string form (str of a string is the string itself, so the
coercion is pyStr in every case), requires a string right operand on pain
of TypeError, maps a pattern compilation failure to the InvalidPattern
ValueError, and otherwise returns a Boolean saying whether the pattern
matches anywhere in the left string; with the two spec examples. -/
theorem c10_regex_operator :
    (∀ (v : Value) (pat : String) {b : Bool},
        reSearch pat (pyStr v) = .ok b →
        regexMatch v (.str pat) = .ok (.bool b))
    ∧ (∀ (v : Value) (pat : String) {m : String},
        reSearch pat (pyStr v) = .error m →
        regexMatch v (.str pat) = .error (.valueErr ("Invalid regex pattern " ++ pat ++ ": " ++ m)))
    ∧ (∀ (l r : Value), isStrV r = false →
        regexMatch l r = .error (.typeErr ("Regex pattern must be a string, got " ++ pyTypeName r)))
    ∧ evalValue "\"test123\" ~ \"[0-9]+\"" st0 = .ok (.bool true)
    ∧ evalValue "\"x\" ~ \"[\"" st0
        = .error (.valueErr "Invalid regex pattern [: unterminated character set") := by
  refine ⟨?_, ?_, ?_, rfl, rfl⟩
  · intro v pat b h
    cases v <;> simp only [regexMatch, pyStr] at h ⊢ <;> rw [h]
  · intro v pat m h
    cases v <;> simp only [regexMatch, pyStr] at h ⊢ <;> rw [h]
  · intro l r h
    cases r <;> first
      | rfl
      | simp [isStrV] at h

/-- Witness for C10: the match part applied at the spec example, where the
pattern finds digits inside the subject anywhere, not only at the start. -/
theorem c10_witness :
    regexMatch (.str "test123") (.str "[0-9]+") = .ok (.bool true) :=
  c10_regex_operator.1 (.str "test123") "[0-9]+" rfl

/-- Claim C8: call dispatch for a name that is neither len nor log.  The
spec-modelled registry dispatch consults the registry first (a registered
callback is invoked) and fails with the UnknownFunction NameError exactly
when the name is absent; the core applyFunction of the source, which has no
registry at all, coincides with the spec dispatch under an empty registry,
and a concrete unknown call fails accordingly. -/
theorem c8_unknown_function_dispatch :
    (∀ (reg : Registry) (name : String) (args : List Value) (st : St),
        name ≠ "len" → name ≠ "log" → lookupReg reg name = none →
        specDispatch reg name args st = .error (.nameErr ("Function " ++ name ++ " is not defined")))
    ∧ (∀ (reg : Registry) (name : String) (f : List Value → Except EvalError Value)
        (args : List Value) (st : St),
        name ≠ "len" → name ≠ "log" → lookupReg reg name = some f →
        specDispatch reg name args st = (f args).map (fun v => (v, st)))
    ∧ (∀ (name : String) (args : List Value) (st : St),
        applyFunction name args st = specDispatch [] name args st)
    ∧ evalValue "foo(1)" st0 = .error (.nameErr "Function foo is not defined") := by
  refine ⟨?_, ?_, ?_, rfl⟩
  · intro reg name args st h1 h2 h3
    simp [specDispatch, h1, h2, h3]
  · intro reg name f args st h1 h2 h3
    simp [specDispatch, h1, h2, h3]
  · intro name args st
    by_cases h1 : name = "len"
    · simp [applyFunction, specDispatch, h1]
    · by_cases h2 : name = "log"
      · simp [applyFunction, specDispatch, h1, h2]
      · simp [applyFunction, specDispatch, h1, h2, lookupReg]

/-- Witness for C8: the unknown-name part applied at the name foo with an
empty registry. -/
theorem c8_witness :
    specDispatch [] "foo" [.int 1] st0 = .error (.nameErr "Function foo is not defined") :=
  c8_unknown_function_dispatch.1 [] "foo" [.int 1] st0 (by decide) (by decide) rfl

/-- Claim C2: parse_if_statement parses, and therefore evaluates, both
branch expressions before selecting the returned value, whatever the
condition: an error raised by the then branch aborts the conditional even
when the condition is falsy, an error raised by the else branch aborts it
even when the condition is truthy (no truthiness hypothesis appears in
either part), and the spec example raises the division error from the
non-taken then branch instead of returning 2. -/
theorem c2_if_evaluates_both_branches :
    (∀ (f : Nat) (st : St) {cond : Value} {st2 : St} (e : EvalError),
        parseExpression f (consumeTok st) = .ok (cond, st2) →
        (curTok st2).isKw "then" = true →
        (!(curTok (consumeTok st2)).isEof && !(curTok (consumeTok st2)).isKw "else") = true →
        parseExpression f (consumeTok st2) = .error e →
        parseIfStatement (f + 1) st = .error e)
    ∧ (∀ (f : Nat) (st : St) {cond : Value} {st2 : St} {a : Value} {st4 : St} (e : EvalError),
        parseExpression f (consumeTok st) = .ok (cond, st2) →
        (curTok st2).isKw "then" = true →
        (!(curTok (consumeTok st2)).isEof && !(curTok (consumeTok st2)).isKw "else") = true →
        parseExpression f (consumeTok st2) = .ok (a, st4) →
        (curTok st4).isKw "else" = true →
        (!(curTok (consumeTok st4)).isEof) = true →
        parseExpression f (consumeTok st4) = .error e →
        parseIfStatement (f + 1) st = .error e)
    ∧ evalValue "if false then 1/0 else 2" st0 = .error (.zeroDivErr "division by zero") := by
  refine ⟨?_, ?_, rfl⟩
  · intro f st cond st2 e h1 h2 h3 h4
    simp only [parseIfStatement, h1, h2, if_true, h3, h4]
  · intro f st cond st2 a st4 e h1 h2 h3 h4 h5 h6 h7
    simp only [parseIfStatement, h1, h2, if_true, h3, h4, h5, h6, h7]

/-- Witness for C2: the then-branch part applied at the spec example, whose
condition is false and whose non-taken then branch divides by zero. -/
theorem c2_witness :
    parseIfStatement 200 (stAt "if false then 1/0 else 2" 0)
      = .error (.zeroDivErr "division by zero") :=
  c2_if_evaluates_both_branches.1 199 (stAt "if false then 1/0 else 2" 0)
    (.zeroDivErr "division by zero") rfl rfl rfl rfl

/-- Claim C3: the and/or loops evaluate the right operand before applying
the combinator, with no hypothesis on the left value: a right-operand error
propagates and a right-operand success advances the state (carrying its
side effects) even when the left operand alone determines the result; in
the concrete examples the log call on the right executes although the left
operand already decides the outcome. -/
theorem c3_and_or_no_short_circuit :
    (∀ (f : Nat) (left : Value) (st : St) (e : EvalError),
        (curTok st).isKw "and" = true →
        parseComparison f (consumeTok st) = .error e →
        parseAndLoop (f + 1) left st = .error e)
    ∧ (∀ (f : Nat) (left : Value) (st : St) {right : Value} {st2 : St},
        (curTok st).isKw "and" = true →
        parseComparison f (consumeTok st) = .ok (right, st2) →
        parseAndLoop (f + 1) left st = parseAndLoop f (pyAnd left right) st2)
    ∧ (∀ (f : Nat) (left : Value) (st : St) (e : EvalError),
        (curTok st).isKw "or" = true →
        parseAndExpression f (consumeTok st) = .error e →
        parseOrLoop (f + 1) left st = .error e)
    ∧ (∀ (f : Nat) (left : Value) (st : St) {right : Value} {st2 : St},
        (curTok st).isKw "or" = true →
        parseAndExpression f (consumeTok st) = .ok (right, st2) →
        parseOrLoop (f + 1) left st = parseOrLoop f (pyOr left right) st2)
    ∧ evalValue "false and log(1)" st0 = .ok (.bool false)
    ∧ evalOutput "false and log(1)" st0 = .ok ["1"]
    ∧ evalValue "true or log(2)" st0 = .ok (.bool true)
    ∧ evalOutput "true or log(2)" st0 = .ok ["2"] := by
  refine ⟨?_, ?_, ?_, ?_, rfl, rfl, rfl, rfl⟩
  · intro f left st e h1 h2
    simp only [parseAndLoop, h1, if_true, h2]
  · intro f left st right st2 h1 h2
    simp only [parseAndLoop, h1, if_true, h2]
  · intro f left st e h1 h2
    simp only [parseOrLoop, h1, if_true, h2]
  · intro f left st right st2 h1 h2
    simp only [parseOrLoop, h1, if_true, h2]

/-- Witness for C3: the and part applied with a falsy left operand and a
right operand whose evaluation raises, showing the right side runs. -/
theorem c3_witness :
    parseAndLoop 60 (.bool false) (stAt "false and 1/0" 1)
      = .error (.zeroDivErr "division by zero") :=
  c3_and_or_no_short_circuit.1 59 (.bool false) (stAt "false and 1/0" 1)
    (.zeroDivErr "division by zero") rfl rfl

/-- Claim C4: the conditional expression returns the then value on a truthy
condition and the else value otherwise (Null when the else clause is
absent), and a missing then keyword is the MalformedSyntax error; stated
generally over parse_if_statement runs whose pieces succeed, plus the two
spec examples and the missing-then example. -/
theorem c4_conditional_selection_and_then_mandatory :
    (∀ (f : Nat) (st : St) {cond : Value} {st2 : St},
        parseExpression f (consumeTok st) = .ok (cond, st2) →
        (curTok st2).isKw "then" = false →
        parseIfStatement (f + 1) st
          = .error (.syntaxErr "Expected then keyword after if condition"))
    ∧ (∀ (f : Nat) (st : St) {cond : Value} {st2 : St} {a : Value} {st4 : St} {b : Value} {st6 : St},
        parseExpression f (consumeTok st) = .ok (cond, st2) →
        (curTok st2).isKw "then" = true →
        (!(curTok (consumeTok st2)).isEof && !(curTok (consumeTok st2)).isKw "else") = true →
        parseExpression f (consumeTok st2) = .ok (a, st4) →
        (curTok st4).isKw "else" = true →
        (!(curTok (consumeTok st4)).isEof) = true →
        parseExpression f (consumeTok st4) = .ok (b, st6) →
        parseIfStatement (f + 1) st = .ok (if truthy cond then a else b, st6))
    ∧ (∀ (f : Nat) (st : St) {cond : Value} {st2 : St} {a : Value} {st4 : St},
        parseExpression f (consumeTok st) = .ok (cond, st2) →
        (curTok st2).isKw "then" = true →
        (!(curTok (consumeTok st2)).isEof && !(curTok (consumeTok st2)).isKw "else") = true →
        parseExpression f (consumeTok st2) = .ok (a, st4) →
        (curTok st4).isKw "else" = false →
        parseIfStatement (f + 1) st = .ok (if truthy cond then a else .null, st4))
    ∧ evalValue "if 5 > 3 then \"yes\" else \"no\"" st0 = .ok (.str "yes")
    ∧ evalValue "if false then 1" st0 = .ok .null
    ∧ evalValue "if 5 > 3 1 else 2" st0
        = .error (.syntaxErr "Expected then keyword after if condition") := by
  refine ⟨?_, ?_, ?_, rfl, rfl, rfl⟩
  · intro f st cond st2 h1 h2
    simp only [parseIfStatement, h1, h2, if_false, Bool.false_eq_true]
  · intro f st cond st2 a st4 b st6 h1 h2 h3 h4 h5 h6 h7
    simp only [parseIfStatement, h1, h2, if_true, h3, h4, h5, h6, h7]
  · intro f st cond st2 a st4 h1 h2 h3 h4 h5
    simp only [parseIfStatement, h1, h2, if_true, h3, h4, h5, Bool.false_eq_true, if_false]

/-- Witness for C4: the missing-then part applied at the spec example. -/
theorem c4_witness :
    parseIfStatement 200 (stAt "if 5 > 3 1 else 2" 0)
      = .error (.syntaxErr "Expected then keyword after if condition") :=
  c4_conditional_selection_and_then_mandatory.1 199 (stAt "if 5 > 3 1 else 2" 0) rfl rfl

/-- Claim C6: verify returns false exactly when the non-executing check
fails with a SyntaxError (MalformedSyntax) or ValueError (InvalidPattern),
returns true when the check fails with any other exception kind, and on the
two spec examples returns true for the undefined-variable expression and
false for the conditional missing its then keyword. -/
theorem c6_verify_error_classification :
    (∀ (code : String) (extra : List (String × Value)) (st : St),
        (verify code extra st).1 = false ↔ checkFailsSyntactically code = true)
    ∧ (∀ (code : String) (extra : List (String × Value)) (st : St) (e : EvalError),
        verifyCheck code = .error e → isSyntaxClassErr e = false →
        (verify code extra st).1 = true)
    ∧ (verify "undefined_var + 1" [] st0).1 = true
    ∧ (verify "if 5 > 3 1 else 2" [] st0).1 = false := by
  refine ⟨?_, ?_, rfl, rfl⟩
  · intro code extra st
    cases hc : verifyCheck code with
    | ok u => simp [verify, checkFailsSyntactically, hc]
    | error e => cases e <;> simp [verify, checkFailsSyntactically, hc, isSyntaxClassErr]
  · intro code extra st e h1 h2
    simp [verify, h1, h2]

/-- Witness for C6: the classification applied at the missing-then example,
whose check fails with the syntax-class error. -/
theorem c6_witness :
    (verify "if 5 > 3 1 else 2" [("x", .int 1)] stUser).1 = false :=
  (c6_verify_error_classification.1 "if 5 > 3 1 else 2" [("x", .int 1)] stUser).mpr rfl
